import Mathlib

/-!
Shallow embedding of the playlist-downloader repository
(src/models.py, src/config.py, src/youtube_downloader.py,
src/spotify_extractor.py, src/main.py) and proofs about it.

Conventions:
* Python strings are Lean String values; character-level work is done on
  String.data (a List Char).
* Python float arithmetic on small exact ratios (similarity scores,
  thresholds) is modelled by the rationals.
* Wall-clock timing fields (download_time, total_time) carry no
  information relevant to the verified properties; they are modelled as
  rationals but never constrained.
* Fallible external collaborators (the filesystem, the search index, the
  download tool, the playlist API) are modelled as explicit oracles; an
  exception raised by a collaborator is the CallRes.exc value.
-/

/-! ## Python string primitives -/

/-- Python str.lower on a single character (ASCII case mapping, which is
all the source relies on). -/
def pyLowerChar (c : Char) : Char := c.toLower

/-- Python str.lower. -/
def pyLower (s : String) : String := ⟨s.data.map pyLowerChar⟩

/-- Python whitespace class, the characters matched by the regex class
backslash-s and stripped by str.strip(). -/
def isPySpace (c : Char) : Bool :=
  c = ' ' || c = '\t' || c = '\n' || c = '\r' || c = '\x0b' || c = '\x0c'

/-- Drop leading and trailing characters satisfying p (Python str.strip
with an explicit character set). -/
def stripEnds (p : Char → Bool) (l : List Char) : List Char :=
  ((l.dropWhile p).reverse.dropWhile p).reverse

/-- Python str.strip() with no argument: trims whitespace at both ends. -/
def pyStrip (s : String) : String := ⟨stripEnds isPySpace s.data⟩

/-- Python str.split() with no argument: split on whitespace runs,
discarding empty pieces. -/
def pySplit (s : String) : List String :=
  ((s.data.splitOnP isPySpace).filter (fun w => !w.isEmpty)).map String.mk

/-- Contiguous-sublist test on character lists: does pat occur inside s?
(Python substring containment, the operator in.) -/
def listContainsSub (pat : List Char) : List Char → Bool
  | [] => pat.isEmpty
  | c :: rest => pat.isPrefixOf (c :: rest) || listContainsSub pat rest

/-- Python substring containment: needle in haystack. -/
def containsSubstrS (haystack needle : String) : Bool :=
  listContainsSub needle.data haystack.data

/-! ## src/models.py -/

/-- models.py DownloadStatus. -/
inductive DownloadStatus where
  | pending
  | downloading
  | success
  | failed
  | verified
  | verification_failed
deriving DecidableEq, Repr

/-- models.py Track. -/
structure Track where
  title : String
  artist : String
  album : String
  duration_ms : Int
  isrc : String
  spotify_id : String
  playlist_name : String
deriving DecidableEq, Repr

/-- Shorthand for a Track carrying only title and artist, the other
fields at their dataclass defaults. -/
def mkTrack (title artist : String) : Track :=
  { title := title, artist := artist, album := "", duration_ms := 0,
    isrc := "", spotify_id := "", playlist_name := "" }

/-- Track.__str__: "artist - title". -/
def Track.str (t : Track) : String := t.artist ++ " - " ++ t.title

/-- The characters removed by Track.to_filename, the regex class
matching any of < > : " / backslash | ? * . -/
def invalidFilenameChar (c : Char) : Bool :=
  c = '<' || c = '>' || c = ':' || c = '"' || c = '/' || c = '\\' ||
  c = '|' || c = '?' || c = '*'

/-- The stem computed inside Track.to_filename (the local safe_name just
before the extension is appended): invalid characters removed, then
leading/trailing dots and spaces stripped, then truncated to 150. -/
def Track.safe_name (t : Track) : String :=
  let s1 := (t.artist ++ " - " ++ t.title).data.filter
    (fun c => !invalidFilenameChar c)
  let s2 := stripEnds (fun c => c = '.' || c = ' ') s1
  let s3 := if s2.length > 150 then s2.take 150 else s2
  ⟨s3⟩

/-- models.py Track.to_filename. -/
def Track.to_filename (t : Track) : String := t.safe_name ++ ".mp3"

/-- models.py FingerprintMatch. -/
structure FingerprintMatch where
  title : String
  artist : String
  album : String
  confidence : ℚ
  match_source : String
  musicbrainz_id : String
deriving DecidableEq, Repr

/-- FingerprintMatch._text_similarity: token-set Jaccard similarity on
lower-cased whitespace-split words, 0 when either input or either word
set is empty. -/
def text_similarity (t1 t2 : String) : ℚ :=
  if t1 = "" || t2 = "" then 0
  else
    let words1 : Finset String := (pySplit (pyLower t1)).toFinset
    let words2 : Finset String := (pySplit (pyLower t2)).toFinset
    if words1 = ∅ || words2 = ∅ then 0
    else ((words1 ∩ words2).card : ℚ) / ((words1 ∪ words2).card : ℚ)

/-- models.py FingerprintMatch.matches_track (threshold passed
explicitly; the source default is 0.7). -/
def FingerprintMatch.matches_track (m : FingerprintMatch) (track : Track)
    (threshold : ℚ) : Bool :=
  decide (threshold ≤ text_similarity m.title track.title) &&
  decide (threshold ≤ text_similarity m.artist track.artist)

/-- models.py DownloadResult. -/
structure DownloadResult where
  track : Track
  status : DownloadStatus
  file_path : Option String
  error_message : Option String
  fingerprint_match : Option FingerprintMatch
  youtube_url : Option String
  download_time : ℚ
deriving DecidableEq, Repr

/-- DownloadResult.is_success: status is SUCCESS or VERIFIED. -/
def DownloadResult.is_success (r : DownloadResult) : Bool :=
  r.status = DownloadStatus.success || r.status = DownloadStatus.verified

/-- models.py PlaylistInfo. -/
structure PlaylistInfo where
  name : String
  url : String
  platform : String
  track_count : Int
deriving DecidableEq, Repr

/-- models.py SessionStats. -/
structure SessionStats where
  total_tracks : Nat
  successful_downloads : Nat
  failed_downloads : Nat
  verified_downloads : Nat
  verification_failures : Nat
  skipped_tracks : Nat
  total_time : ℚ
deriving DecidableEq, Repr

/-- A fresh SessionStats, all dataclass defaults. -/
def initStats : SessionStats :=
  { total_tracks := 0, successful_downloads := 0, failed_downloads := 0,
    verified_downloads := 0, verification_failures := 0,
    skipped_tracks := 0, total_time := 0 }

/-! ## src/config.py (the fields the verified code paths read) -/

/-- config.py Config, restricted to the fields read by the embedded
code paths, with the values the source assigns (note that
fingerprint_verification is hard-coded False in config.py). -/
structure Config where
  max_duration : Int
  min_duration : Int
  similarity_threshold : ℚ
  download_delay : ℚ
  fingerprint_verification : Bool
deriving Repr

/-- The global config instance of config.py. -/
def config : Config :=
  { max_duration := 600, min_duration := 30, similarity_threshold := 7/10,
    download_delay := 2, fingerprint_verification := false }

/-! ## src/youtube_downloader.py: search-text cleanup

_clean_search_text applies re.sub(pattern, removal, IGNORECASE) for nine
patterns. Each pattern is a case-insensitive literal, or a literal head
followed by a non-greedy gap of non-newline characters up to a closing
character, or the open-paren/"version"/close-paren pattern. The engine
below reproduces re.sub semantics for exactly these shapes: scan left to
right, delete the leftmost (non-greedy) match, resume after it. -/

/-- Case-insensitive literal match at the head of s; pat is given in
lower case. Returns the remainder after the literal. -/
def matchLitCI (pat : List Char) (s : List Char) : Option (List Char) :=
  if (s.take pat.length).map pyLowerChar = pat then some (s.drop pat.length)
  else none

/-- The regex fragment .*?c (non-greedy gap of non-newline characters,
then the closing character c): the nearest occurrence of c not beyond a
newline. Returns the remainder after c. -/
def nonGreedyFindClose (close : Char) : List Char → Option (List Char)
  | [] => none
  | c :: rest =>
    if c = close then some rest
    else if c = '\n' then none
    else nonGreedyFindClose close rest

/-- A pattern of shape literal-head ++ .*? ++ closing-character (such as
the feat./ft./featuring/bracket patterns). Returns the remainder after
the whole match when the pattern matches at the head of s. -/
def tryMatchHeadClose (pre : List Char) (close : Char) (s : List Char) :
    Option (List Char) :=
  (matchLitCI pre s).bind (nonGreedyFindClose close)

/-- Inside the open-paren/"version"/close-paren pattern, after the open
paren: find (scanning over non-newline gap characters) an occurrence of
the literal "version" that is followed, over a further non-newline
non-greedy gap, by a closing paren; leftmost such occurrence wins, as in
the backtracking regex engine. -/
def seekVersionClose : List Char → Option (List Char)
  | [] => none
  | c :: rest =>
    match matchLitCI "version".data (c :: rest) with
    | some r1 =>
      match nonGreedyFindClose ')' r1 with
      | some r2 => some r2
      | none => if c = '\n' then none else seekVersionClose rest
    | none => if c = '\n' then none else seekVersionClose rest

/-- The pattern open-paren ++ .*? ++ "version" ++ .*? ++ close-paren at
the head of s. -/
def tryMatchVersion : List Char → Option (List Char)
  | '(' :: rest => seekVersionClose rest
  | _ => none

/-- One deletion pass of re.sub(pattern, empty, text): scan left to
right; wherever the pattern matches, delete the match and resume after
it. Fuel bounds recursion; every pattern used consumes at least one
character, so fuel = length suffices. -/
def subDeleteAux (tryM : List Char → Option (List Char)) :
    Nat → List Char → List Char
  | _, [] => []
  | 0, s => s
  | fuel + 1, c :: rest =>
    match tryM (c :: rest) with
    | some rem => subDeleteAux tryM fuel rem
    | none => c :: subDeleteAux tryM fuel rest

/-- re.sub(pattern, empty, text) for the supported pattern shapes. -/
def subDelete (tryM : List Char → Option (List Char)) (s : List Char) :
    List Char :=
  subDeleteAux tryM s.length s

/-- The nine patterns_to_remove of _clean_search_text, in source order. -/
def cleanPatterns : List (List Char → Option (List Char)) :=
  [ tryMatchHeadClose "(feat.".data ')',
    tryMatchHeadClose "(ft.".data ')',
    tryMatchHeadClose "(featuring".data ')',
    matchLitCI "(remix)".data,
    matchLitCI "(remaster)".data,
    matchLitCI "(live)".data,
    matchLitCI "(acoustic)".data,
    tryMatchHeadClose "[".data ']',
    tryMatchVersion ]

/-- re.sub of a whitespace run to a single space (the final cleanup step
of _clean_search_text). -/
def collapseWsAux : Bool → List Char → List Char
  | _, [] => []
  | prevSpace, c :: rest =>
    if isPySpace c then
      if prevSpace then collapseWsAux true rest
      else ' ' :: collapseWsAux true rest
    else c :: collapseWsAux false rest

/-- Collapse whitespace runs to single spaces. -/
def collapseWs (l : List Char) : List Char := collapseWsAux false l

/-- youtube_downloader.py YouTubeDownloader._clean_search_text. -/
def clean_search_text (text : String) : String :=
  let cleaned := cleanPatterns.foldl (fun s p => subDelete p s) text.data
  ⟨stripEnds isPySpace (collapseWs cleaned)⟩

/-- youtube_downloader.py YouTubeDownloader._generate_search_queries:
seven templates over the cleaned title/artist, truncated to the first
three. -/
def generate_search_queries (track : Track) : List String :=
  let clean_title := clean_search_text track.title
  let clean_artist := clean_search_text track.artist
  let queries : List String :=
    [ "\"" ++ clean_title ++ "\" \"" ++ clean_artist ++ "\" official audio",
      "\"" ++ clean_title ++ "\" \"" ++ clean_artist ++ "\" lyrics",
      "\"" ++ clean_title ++ "\" \"" ++ clean_artist ++ "\" official music video",
      clean_artist ++ " " ++ clean_title ++ " official",
      clean_artist ++ " " ++ clean_title,
      clean_title ++ " " ++ clean_artist,
      clean_title ++ " by " ++ clean_artist ]
  queries.take 3

/-! ## src/youtube_downloader.py: candidate selection -/

/-- One raw search result, as the fields _is_good_match reads from the
yt-dlp JSON record (a missing title key defaults to the empty string and
a missing duration key to 0 in the source; the fields here carry those
already-defaulted values). -/
structure VideoInfo where
  title : String
  duration : Int
  webpage_url : String
deriving DecidableEq, Repr

/-- The avoid_indicators reject list of _is_good_match. -/
def avoid_indicators : List String :=
  ["reaction", "review", "cover", "karaoke", "instrumental",
   "tutorial", "how to", "lesson", "behind the scenes"]

/-- The official_indicators list of _is_good_match (computed there but
never used to gate acceptance). -/
def official_indicators : List String :=
  ["official", "vevo", "records", "music", "audio only", "lyrics"]

/-- youtube_downloader.py YouTubeDownloader._is_good_match. -/
def is_good_match (cfg : Config) (video_info : VideoInfo) : Bool :=
  let title := pyLower video_info.title
  let duration := video_info.duration
  if duration > cfg.max_duration || duration < cfg.min_duration then false
  else if avoid_indicators.any (fun ind => containsSubstrS title ind) then
    false
  else
    let _has_official :=
      official_indicators.any (fun ind => containsSubstrS title ind)
    true

/-- The selection loop of _search_youtube over the parsed results: the
first video accepted by _is_good_match, or none. -/
def select_first_match (cfg : Config) (videos : List VideoInfo) :
    Option VideoInfo :=
  videos.find? (fun v => is_good_match cfg v)

/-! ## src/youtube_downloader.py: download_track -/

/-- Outcome of a call into a fallible external collaborator: a returned
value, or a raised exception. -/
inductive CallRes (α : Type) where
  | ok (a : α)
  | exc
deriving DecidableEq, Repr

/-- A record of one collaborator invocation made by download_track. -/
inductive CollabCall where
  | search (query : String)
  | download (url : String)
deriving DecidableEq, Repr

/-- The environment download_track runs in: the download directory, the
filesystem existence check, and the two collaborators. searchOracle
models _search_youtube for a query (ok none = no acceptable result, exc
= an exception escaping it); downloadOracle models _download_video for a
chosen video (ok none = tool failure handled inside, exc = an exception
escaping it). Exceptions from either are caught by the per-query handler
in download_track. -/
structure DlEnv where
  downloadPath : String
  fileExists : String → Bool
  searchOracle : String → CallRes (Option VideoInfo)
  downloadOracle : VideoInfo → CallRes (Option String)

/-- os.path.join for the one two-component use in download_track. -/
def pathJoin (a b : String) : String := a ++ "/" ++ b

/-- The expected_path computed at the top of download_track. -/
def expected_path (env : DlEnv) (track : Track) : String :=
  pathJoin env.downloadPath track.to_filename

/-- The per-query loop of download_track: try each query in order; a
query yields a file when search returns a video and the download tool
produces a path; an exception from search or download is caught and
treated as a failure of that query. Returns the first produced (video,
path) if any, paired with the trace of collaborator invocations made. -/
def try_queries (env : DlEnv) :
    List String → Option (VideoInfo × String) × List CollabCall
  | [] => (none, [])
  | q :: qs =>
    match env.searchOracle q with
    | CallRes.exc =>
      let r := try_queries env qs
      (r.1, CollabCall.search q :: r.2)
    | CallRes.ok none =>
      let r := try_queries env qs
      (r.1, CollabCall.search q :: r.2)
    | CallRes.ok (some v) =>
      match env.downloadOracle v with
      | CallRes.ok (some path) =>
        (some (v, path),
         [CollabCall.search q, CollabCall.download v.webpage_url])
      | CallRes.ok none =>
        let r := try_queries env qs
        (r.1, CollabCall.search q :: CollabCall.download v.webpage_url :: r.2)
      | CallRes.exc =>
        let r := try_queries env qs
        (r.1, CollabCall.search q :: CollabCall.download v.webpage_url :: r.2)

/-- Whether one query produces a downloaded file under env (search
returns a video and the download tool returns a path; an exception or a
miss anywhere is a failure of that query). -/
def query_succeeds (env : DlEnv) (q : String) : Bool :=
  match env.searchOracle q with
  | CallRes.ok (some v) =>
    match env.downloadOracle v with
    | CallRes.ok (some _) => true
    | _ => false
  | _ => false

/-- The full outcome of one download_track call: the returned
DownloadResult, the trace of collaborator invocations, and whether the
track was appended to the in-memory failed_downloads list. -/
structure DlOutcome where
  result : DownloadResult
  calls : List CollabCall
  failedAppended : Bool
deriving Repr

/-- youtube_downloader.py YouTubeDownloader.download_track. The existence
short-circuit, the per-query loop with its per-query exception handler,
and the exhaustion branch are embedded directly; the outer exception
handler of the source is unreachable here because every step outside the
per-query try block (filename computation, query generation, list
append) is total. Timing (download_time) is not modelled and is 0. -/
def download_track (env : DlEnv) (track : Track) : DlOutcome :=
  let expected := expected_path env track
  if env.fileExists expected then
    { result :=
        { track := track, status := DownloadStatus.success,
          file_path := some expected, error_message := none,
          fingerprint_match := none, youtube_url := none,
          download_time := 0 },
      calls := [], failedAppended := false }
  else
    let search_queries := generate_search_queries track
    match try_queries env search_queries with
    | (some (v, path), calls) =>
      { result :=
          { track := track, status := DownloadStatus.success,
            file_path := some path, error_message := none,
            fingerprint_match := none, youtube_url := some v.webpage_url,
            download_time := 0 },
        calls := calls, failedAppended := false }
    | (none, calls) =>
      { result :=
          { track := track, status := DownloadStatus.failed,
            file_path := none,
            error_message := some "No suitable video found",
            fingerprint_match := none, youtube_url := none,
            download_time := 0 },
        calls := calls, failedAppended := true }

/-! ## src/spotify_extractor.py -/

/-- The deduplication pass at the end of extract_multiple_playlists:
keep a track when its spotify_id has not been seen yet, in order, adding
each kept id to the seen set (modelled as a list with membership). -/
def dedup_by_id (seen : List String) : List Track → List Track
  | [] => []
  | t :: ts =>
    if t.spotify_id ∈ seen then dedup_by_id seen ts
    else t :: dedup_by_id (t.spotify_id :: seen) ts

/-- spotify_extractor.py SpotifyExtractor.extract_multiple_playlists,
over the per-playlist extraction outcomes in input order (none = that
extraction of that playlist raised and was skipped by the per-playlist
handler). Successful playlists contribute their info and tracks in
order; the concatenated track list is then deduplicated by spotify_id. -/
def extract_multiple_playlists
    (results : List (Option (PlaylistInfo × List Track))) :
    List PlaylistInfo × List Track :=
  let successful := results.filterMap id
  let all_tracks := (successful.map Prod.snd).flatten
  (successful.map Prod.fst, dedup_by_id [] all_tracks)

/-- The concatenated (pre-deduplication) track list of
extract_multiple_playlists. -/
def all_extracted_tracks
    (results : List (Option (PlaylistInfo × List Track))) : List Track :=
  ((results.filterMap id).map Prod.snd).flatten

/-! ## src/main.py -/

/-- What one iteration of the per-track loop of _download_tracks
observes: either download_track returned a DownloadResult (with the
outcome verify_download would report if consulted), or the iteration
raised before reaching the statistics update and the exception was
caught at the loop boundary. Every repository callee past the statistics
update inside the try block (verify_download, the stats writes) is
total, so a caught exception always precedes the update. -/
inductive TrackEvent where
  | res (r : DownloadResult) (verifyOk : Bool)
  | exc
deriving Repr

/-- The statistics update of one iteration of the per-track loop of
PlaylistDownloadService._download_tracks (main.py lines 127-169),
including the verification branch guarded by config
fingerprint_verification. -/
def loop_step (cfg : Config) (stats : SessionStats) (ev : TrackEvent) :
    SessionStats :=
  match ev with
  | TrackEvent.exc =>
    { stats with failed_downloads := stats.failed_downloads + 1 }
  | TrackEvent.res r verifyOk =>
    if r.is_success then
      let stats :=
        { stats with
          successful_downloads := stats.successful_downloads + 1 }
      if r.file_path.isSome && cfg.fingerprint_verification then
        if verifyOk then
          { stats with
            verified_downloads := stats.verified_downloads + 1 }
        else
          { stats with
            verification_failures := stats.verification_failures + 1 }
      else stats
    else
      { stats with failed_downloads := stats.failed_downloads + 1 }

/-- The whole per-track loop of _download_tracks as a fold of loop_step
over the per-iteration events. -/
def download_tracks_stats (cfg : Config) (stats0 : SessionStats)
    (events : List TrackEvent) : SessionStats :=
  events.foldl (loop_step cfg) stats0

/-- The SessionStats at the end of PlaylistDownloadService.run for a run
that reaches the download loop: total_tracks is set to the number of
tracks (one loop iteration each) before the loop runs on fresh
statistics. -/
def run_stats (cfg : Config) (events : List TrackEvent) : SessionStats :=
  download_tracks_stats cfg
    { initStats with total_tracks := events.length } events

/-- Python truthiness of a string and str.startswith for the one-character
comment marker, at the character-list level. -/
def lineKept (l : String) : Bool :=
  match l.data with
  | [] => false
  | c :: _ => !(c = '#')

/-- PlaylistDownloadService._read_playlist_urls: none models a missing
or unreadable playlists file (empty result); otherwise each line is
stripped, blank lines and comment lines are skipped, and a line is kept
exactly when it contains the playlist-URL marker. -/
def read_playlist_urls (fileLines : Option (List String)) : List String :=
  match fileLines with
  | none => []
  | some ls =>
    ((ls.map pyStrip).filter lineKept).filter
      (fun l => containsSubstrS l "spotify.com/playlist/")

/-- The external observations one PlaylistDownloadService.run consumes:
the playlists-file content, the outcome of extraction over the URLs
read from it (exc = an exception caught by the handler in run), and the
per-track loop events. -/
structure RunEnv where
  fileLines : Option (List String)
  extractRes : CallRes (List PlaylistInfo × List Track)
  events : List TrackEvent

/-- How one call of PlaylistDownloadService.run ends. -/
inductive RunPhase where
  | aborted_no_urls
  | aborted_no_tracks
  | aborted_error
  | completed (stats : SessionStats)
deriving DecidableEq, Repr

/-- main.py PlaylistDownloadService.run: read URLs, return early (an
error is logged, nothing is raised) when none; extract, return early
when zero tracks; otherwise set total_tracks and run the download loop.
Every early return and the completed path fall through to the finally
block and return normally to the caller. -/
def run_service (cfg : Config) (env : RunEnv) : RunPhase :=
  let playlist_urls := read_playlist_urls env.fileLines
  if playlist_urls.isEmpty then RunPhase.aborted_no_urls
  else
    match env.extractRes with
    | CallRes.exc => RunPhase.aborted_error
    | CallRes.ok (_playlists, tracks) =>
      if tracks.isEmpty then RunPhase.aborted_no_tracks
      else
        RunPhase.completed
          (download_tracks_stats cfg
            { initStats with total_tracks := tracks.length } env.events)

/-- main.py main(): exit code 1 when required credentials are missing
(sys.exit(1) in the service constructor) or when service initialization
raises (sys.exit(1) in the handler of the constructor); otherwise run()
always returns normally, main() returns, and the process exits 0. The
first component is the run phase when run() was reached. -/
def main_run (credentials_ok init_ok : Bool) (cfg : Config)
    (env : RunEnv) : Option RunPhase × Nat :=
  if credentials_ok = false then (none, 1)
  else if init_ok = false then (none, 1)
  else (some (run_service cfg env), 0)

/-! ## Helper lemmas -/

/-- Unfolding of text_similarity with the let bindings expanded. -/
theorem text_similarity_def (t1 t2 : String) :
    text_similarity t1 t2 =
      if t1 = "" || t2 = "" then 0
      else if (pySplit (pyLower t1)).toFinset = ∅ ||
              (pySplit (pyLower t2)).toFinset = ∅ then 0
      else (((pySplit (pyLower t1)).toFinset ∩
              (pySplit (pyLower t2)).toFinset).card : ℚ) /
           (((pySplit (pyLower t1)).toFinset ∪
              (pySplit (pyLower t2)).toFinset).card : ℚ) := rfl

/-- One loop iteration adds exactly one to successful + failed and
leaves total_tracks unchanged. -/
theorem loop_step_counts (cfg : Config) (stats : SessionStats)
    (ev : TrackEvent) :
    ((loop_step cfg stats ev).successful_downloads
        + (loop_step cfg stats ev).failed_downloads
      = stats.successful_downloads + stats.failed_downloads + 1) ∧
    (loop_step cfg stats ev).total_tracks = stats.total_tracks := by
  cases ev with
  | exc => simp [loop_step]; omega
  | res r verifyOk =>
    unfold loop_step
    by_cases h : r.is_success
    · by_cases h2 : r.file_path.isSome && cfg.fingerprint_verification
      · by_cases h3 : verifyOk <;> simp [h, h2, h3] <;> omega
      · simp [h, h2]; omega
    · simp [h]; omega

/-- The loop adds exactly the number of iterations to successful +
failed and leaves total_tracks unchanged. -/
theorem download_tracks_stats_counts (cfg : Config)
    (events : List TrackEvent) :
    ∀ stats0 : SessionStats,
      ((download_tracks_stats cfg stats0 events).successful_downloads
          + (download_tracks_stats cfg stats0 events).failed_downloads
        = stats0.successful_downloads + stats0.failed_downloads
          + events.length) ∧
      (download_tracks_stats cfg stats0 events).total_tracks
        = stats0.total_tracks := by
  induction events with
  | nil => intro stats0; simp [download_tracks_stats]
  | cons ev evs ih =>
    intro stats0
    have h1 := loop_step_counts cfg stats0 ev
    have h2 := ih (loop_step cfg stats0 ev)
    simp only [download_tracks_stats, List.foldl_cons] at h2 ⊢
    constructor
    · rw [h2.1, h1.1]; simp [List.length_cons]; omega
    · rw [h2.2, h1.2]

/-- C1: for every session run in which the per-track loop completes
(every per-track exception is caught at the loop boundary and counted as
a failure, modelled by the TrackEvent list), the final statistics
satisfy successful_downloads + failed_downloads = total_tracks, where
total_tracks was set to the number of loop iterations. -/
theorem C1_session_sum_invariant (cfg : Config)
    (events : List TrackEvent) :
    ((run_stats cfg events).successful_downloads
        + (run_stats cfg events).failed_downloads
      = (run_stats cfg events).total_tracks) ∧
    (run_stats cfg events).total_tracks = events.length := by
  have h := download_tracks_stats_counts cfg events
    { initStats with total_tracks := events.length }
  unfold run_stats
  refine ⟨?_, h.2⟩
  rw [h.1, h.2]
  simp [initStats]

/-! ## C5: matches_track -/

/-- The similarity metric in the words of the spec (4.4 step 5):
token-set (bag-of-words, case-folded) Jaccard similarity of the two
strings. Stated for comparison with text_similarity of the source. -/
def jaccard_similarity (t1 t2 : String) : ℚ :=
  let w1 : Finset String := (pySplit (pyLower t1)).toFinset
  let w2 : Finset String := (pySplit (pyLower t2)).toFinset
  ((w1 ∩ w2).card : ℚ) / ((w1 ∪ w2).card : ℚ)

/-- An empty string has an empty case-folded word set. -/
theorem toFinset_pySplit_empty :
    (pySplit (pyLower "")).toFinset = (∅ : Finset String) := rfl

/-- The _text_similarity of the source coincides with the Jaccard
similarity: the early-return guards of the source only cover cases where
the Jaccard formula itself yields 0 (an empty word set gives an empty
intersection, and division by zero is 0 in the rationals). -/
theorem text_similarity_eq_jaccard (t1 t2 : String) :
    text_similarity t1 t2 = jaccard_similarity t1 t2 := by
  rw [text_similarity_def]
  unfold jaccard_similarity
  split_ifs with h h2
  · simp only [Bool.or_eq_true, decide_eq_true_eq] at h
    rcases h with h | h
    · subst h
      rw [toFinset_pySplit_empty]
      simp
    · subst h
      rw [toFinset_pySplit_empty]
      simp
  · simp only [Bool.or_eq_true, decide_eq_true_eq] at h2
    rcases h2 with h2 | h2 <;> rw [h2] <;> simp
  · rfl

/-- Word-level evaluation: identical up to case. -/
theorem sim_shape_case : text_similarity "Shape Of You" "Shape of You" = 1 := by
  rw [text_similarity_def, if_neg (by decide), if_neg (by decide),
      show ((pySplit (pyLower "Shape Of You")).toFinset ∩
        (pySplit (pyLower "Shape of You")).toFinset).card = 3 by decide,
      show ((pySplit (pyLower "Shape Of You")).toFinset ∪
        (pySplit (pyLower "Shape of You")).toFinset).card = 3 by decide]
  push_cast
  norm_num

/-- Word-level evaluation: equal artists. -/
theorem sim_ed_sheeran : text_similarity "Ed Sheeran" "Ed Sheeran" = 1 := by
  rw [text_similarity_def, if_neg (by decide), if_neg (by decide),
      show ((pySplit (pyLower "Ed Sheeran")).toFinset ∩
        (pySplit (pyLower "Ed Sheeran")).toFinset).card = 2 by decide,
      show ((pySplit (pyLower "Ed Sheeran")).toFinset ∪
        (pySplit (pyLower "Ed Sheeran")).toFinset).card = 2 by decide]
  push_cast
  norm_num

/-- Word-level evaluation: the cover title keeps 3 of 4 words. -/
theorem sim_shape_cover :
    text_similarity "Shape of You (Cover)" "Shape of You" = 3/4 := by
  rw [text_similarity_def, if_neg (by decide), if_neg (by decide),
      show ((pySplit (pyLower "Shape of You (Cover)")).toFinset ∩
        (pySplit (pyLower "Shape of You")).toFinset).card = 3 by decide,
      show ((pySplit (pyLower "Shape of You (Cover)")).toFinset ∪
        (pySplit (pyLower "Shape of You")).toFinset).card = 4 by decide]
  push_cast
  norm_num

/-- Word-level evaluation: disjoint artist names. -/
theorem sim_someone_else :
    text_similarity "Someone Else" "Ed Sheeran" = 0 := by
  rw [text_similarity_def, if_neg (by decide), if_neg (by decide),
      show ((pySplit (pyLower "Someone Else")).toFinset ∩
        (pySplit (pyLower "Ed Sheeran")).toFinset).card = 0 by decide,
      show ((pySplit (pyLower "Someone Else")).toFinset ∪
        (pySplit (pyLower "Ed Sheeran")).toFinset).card = 4 by decide]
  push_cast
  norm_num

/-- C5: matches_track accepts exactly when the case-folded bag-of-words
Jaccard similarities of the title pair and of the artist pair both reach
the threshold; comparing the expected ("Shape of You", "Ed Sheeran")
with the identified ("Shape Of You", "Ed Sheeran") accepts at the
default threshold 0.7, and with the identified
("Shape of You (Cover)", "Someone Else") rejects, the title similarity
passing and the artist similarity failing. -/
theorem C5_matches_track_jaccard_threshold :
    (∀ (m : FingerprintMatch) (track : Track) (threshold : ℚ),
        m.matches_track track threshold = true ↔
          (threshold ≤ jaccard_similarity m.title track.title ∧
           threshold ≤ jaccard_similarity m.artist track.artist)) ∧
    FingerprintMatch.matches_track
      { title := "Shape Of You", artist := "Ed Sheeran", album := "",
        confidence := 0, match_source := "", musicbrainz_id := "" }
      (mkTrack "Shape of You" "Ed Sheeran") (7/10) = true ∧
    FingerprintMatch.matches_track
      { title := "Shape of You (Cover)", artist := "Someone Else",
        album := "", confidence := 0, match_source := "",
        musicbrainz_id := "" }
      (mkTrack "Shape of You" "Ed Sheeran") (7/10) = false ∧
    (7/10 : ℚ) ≤ text_similarity "Shape of You (Cover)" "Shape of You" ∧
    text_similarity "Someone Else" "Ed Sheeran" < 7/10 := by
  refine ⟨?_, ?_, ?_, ?_, ?_⟩
  · intro m track threshold
    unfold FingerprintMatch.matches_track
    rw [text_similarity_eq_jaccard, text_similarity_eq_jaccard]
    simp
  · unfold FingerprintMatch.matches_track
    rw [mkTrack]
    simp only [sim_shape_case, sim_ed_sheeran]
    norm_num
  · unfold FingerprintMatch.matches_track
    rw [mkTrack]
    simp only [sim_shape_cover, sim_someone_else]
    norm_num
  · rw [sim_shape_cover]; norm_num
  · rw [sim_someone_else]; norm_num

/-- Witness for C5: the acceptance direction of the characterization at
the concrete Shape-of-You inputs, the threshold hypotheses discharged
there. -/
theorem C5_witness :
    FingerprintMatch.matches_track
      { title := "Shape Of You", artist := "Ed Sheeran", album := "",
        confidence := 0, match_source := "", musicbrainz_id := "" }
      (mkTrack "Shape of You" "Ed Sheeran") (7/10) = true :=
  (C5_matches_track_jaccard_threshold.1 _ _ _).mpr
    ⟨by rw [← text_similarity_eq_jaccard]
        rw [show (mkTrack "Shape of You" "Ed Sheeran").title = "Shape of You" from rfl]
        rw [sim_shape_case]
        norm_num,
     by rw [← text_similarity_eq_jaccard]
        rw [show (mkTrack "Shape of You" "Ed Sheeran").artist = "Ed Sheeran" from rfl]
        rw [sim_ed_sheeran]
        norm_num⟩

/-! ## C3: candidate selection -/

/-- find? returns exactly the first element satisfying the predicate:
characterization by an append decomposition. -/
theorem find?_first_characterization {α : Type} (p : α → Bool)
    (l : List α) (a : α) :
    l.find? p = some a ↔
      (p a = true ∧ ∃ l1 l2, l = l1 ++ a :: l2 ∧
        ∀ u ∈ l1, p u = false) := by
  induction l with
  | nil => simp
  | cons b l ih =>
    by_cases hb : p b
    · rw [List.find?_cons_of_pos _ hb]
      constructor
      · intro h
        have hba : b = a := by simpa using h
        subst hba
        exact ⟨hb, [], l, rfl, by simp⟩
      · rintro ⟨hpa, l1, l2, heq, hall⟩
        cases l1 with
        | nil =>
          simp only [List.nil_append, List.cons.injEq] at heq
          rw [heq.1]
        | cons c l1t =>
          simp only [List.cons_append, List.cons.injEq] at heq
          have : p b = false := heq.1 ▸ hall c (List.mem_cons_self c l1t)
          rw [this] at hb
          exact Bool.noConfusion hb
    · have hbf : p b = false := by
        cases hpb : p b with
        | true => exact absurd hpb hb
        | false => rfl
      rw [List.find?_cons_of_neg _ hb, ih]
      constructor
      · rintro ⟨hpa, l1, l2, heq, hall⟩
        refine ⟨hpa, b :: l1, l2, by rw [heq, List.cons_append], ?_⟩
        intro u hu
        rcases List.mem_cons.mp hu with hu | hu
        · rw [hu]; exact hbf
        · exact hall u hu
      · rintro ⟨hpa, l1, l2, heq, hall⟩
        cases l1 with
        | nil =>
          simp only [List.nil_append, List.cons.injEq] at heq
          rw [heq.1] at hbf
          rw [hpa] at hbf
          exact absurd hbf (by simp)
        | cons c l1t =>
          simp only [List.cons_append, List.cons.injEq] at heq
          refine ⟨hpa, l1t, l2, heq.2, ?_⟩
          intro u hu
          exact hall u (List.mem_cons_of_mem c hu)

/-- C3: under the default configuration, _is_good_match accepts a result
exactly when its duration lies in the inclusive interval
[min_duration, max_duration] = [30, 600] and its lower-cased title
contains none of the fixed reject substrings; the computed
official-content indicator does not appear in this characterization, so
it never gates acceptance; the selector returns the first result in
index order passing the filter, or none when no result passes; and the
three concrete examples of the spec behave as claimed. -/
theorem C3_candidate_filter :
    (∀ v : VideoInfo, is_good_match config v = true ↔
        (config.min_duration ≤ v.duration ∧
         v.duration ≤ config.max_duration ∧
         ∀ ind ∈ avoid_indicators,
           containsSubstrS (pyLower v.title) ind = false)) ∧
    config.min_duration = 30 ∧ config.max_duration = 600 ∧
    (∀ (videos : List VideoInfo) (v : VideoInfo),
        select_first_match config videos = some v ↔
          (is_good_match config v = true ∧ ∃ l1 l2,
            videos = l1 ++ v :: l2 ∧
            ∀ u ∈ l1, is_good_match config u = false)) ∧
    (∀ videos : List VideoInfo,
        select_first_match config videos = none ↔
          ∀ v ∈ videos, is_good_match config v = false) ∧
    is_good_match config
      { title := "Song Official Audio", duration := 45,
        webpage_url := "" } = true ∧
    is_good_match config
      { title := "Song Official Audio", duration := 20,
        webpage_url := "" } = false ∧
    (∀ d : Int, is_good_match config
      { title := "Song (Karaoke Version)", duration := d,
        webpage_url := "" } = false) := by
  have hchar : ∀ v : VideoInfo, is_good_match config v = true ↔
      (config.min_duration ≤ v.duration ∧
       v.duration ≤ config.max_duration ∧
       ∀ ind ∈ avoid_indicators,
         containsSubstrS (pyLower v.title) ind = false) := by
    intro v
    unfold is_good_match
    dsimp only
    split_ifs with h1 h2
    · simp only [Bool.or_eq_true, decide_eq_true_eq] at h1
      constructor
      · intro h; exact absurd h (by simp)
      · rintro ⟨ha, hb, -⟩
        omega
    · simp only [List.any_eq_true] at h2
      obtain ⟨ind, hind, hcont⟩ := h2
      constructor
      · intro h; exact absurd h (by simp)
      · rintro ⟨-, -, hall⟩
        rw [hall ind hind] at hcont
        exact absurd hcont (by simp)
    · simp only [Bool.or_eq_true, decide_eq_true_eq, not_or] at h1
      constructor
      · intro _
        refine ⟨by omega, by omega, ?_⟩
        intro ind hind
        cases hc : containsSubstrS (pyLower v.title) ind with
        | false => rfl
        | true =>
          exact absurd (List.any_eq_true.mpr ⟨ind, hind, hc⟩) h2
      · intro _; rfl
  refine ⟨hchar, rfl, rfl, ?_, ?_, ?_, ?_, ?_⟩
  · intro videos v
    exact find?_first_characterization _ videos v
  · intro videos
    unfold select_first_match
    rw [List.find?_eq_none]
    constructor
    · intro h v hv
      have := h v hv
      cases hg : is_good_match config v with
      | false => rfl
      | true => exact absurd hg this
    · intro h v hv
      rw [h v hv]
      simp
  · exact (hchar _).mpr ⟨by decide, by decide, by decide⟩
  · cases hg : is_good_match config
      { title := "Song Official Audio", duration := 20,
        webpage_url := "" } with
    | false => rfl
    | true =>
      have := (hchar _).mp hg
      revert this
      decide
  · intro d
    unfold is_good_match
    dsimp only
    split_ifs with h1 h2
    · rfl
    · rfl
    · exact absurd (by decide) h2

/-- Witness for C3: the acceptance direction of the characterization at
the concrete 45-second official-audio result, the duration and
reject-list hypotheses discharged concretely. -/
theorem C3_witness :
    is_good_match config
      { title := "Song Official Audio", duration := 45,
        webpage_url := "" } = true :=
  (C3_candidate_filter.1 _).mpr ⟨by decide, by decide, by decide⟩

/-! ## C7: filename safety -/

/-- The head of dropWhile never satisfies the dropped predicate. -/
theorem head?_dropWhile_eq_some {α : Type} (p : α → Bool) :
    ∀ (l : List α) (c : α), (l.dropWhile p).head? = some c →
      p c = false := by
  intro l
  induction l with
  | nil => intro c h; simp [List.dropWhile] at h
  | cons a l ih =>
    intro c h
    by_cases hpa : p a
    · rw [List.dropWhile_cons_of_pos hpa] at h
      exact ih c h
    · rw [List.dropWhile_cons_of_neg hpa] at h
      simp only [List.head?_cons, Option.some.injEq] at h
      cases hb : p a with
      | true => exact absurd hb hpa
      | false => rw [← h]; exact hb

/-- stripEnds yields a sublist (drops a prefix and a suffix). -/
theorem stripEnds_sublist (p : Char → Bool) (l : List Char) :
    (stripEnds p l).Sublist l := by
  unfold stripEnds
  have h1 : ((l.dropWhile p).reverse.dropWhile p).Sublist
      (l.dropWhile p).reverse := List.dropWhile_sublist p
  have h2 := List.reverse_sublist.mpr h1
  rw [List.reverse_reverse] at h2
  exact h2.trans (List.dropWhile_sublist p)

/-- The first character surviving stripEnds does not satisfy the
stripped predicate. -/
theorem stripEnds_head? (p : Char → Bool) (l : List Char) (c : Char)
    (h : (stripEnds p l).head? = some c) : p c = false := by
  unfold stripEnds at h
  rw [List.head?_reverse] at h
  obtain ⟨t, ht⟩ := List.dropWhile_suffix (l := (l.dropWhile p).reverse) p
  have hBne : (l.dropWhile p).reverse.dropWhile p ≠ [] := by
    intro hh
    rw [hh] at h
    simp at h
  have hlast : (l.dropWhile p).reverse.getLast? = some c := by
    rw [← ht, List.getLast?_append_of_ne_nil _ hBne]
    exact h
  rw [List.getLast?_reverse] at hlast
  exact head?_dropWhile_eq_some p _ c hlast

/-- The last character surviving stripEnds does not satisfy the
stripped predicate. -/
theorem stripEnds_getLast? (p : Char → Bool) (l : List Char) (c : Char)
    (h : (stripEnds p l).getLast? = some c) : p c = false := by
  unfold stripEnds at h
  rw [List.getLast?_reverse] at h
  exact head?_dropWhile_eq_some p _ c h

/-- The truncation-overflow counterexample track: a 147-character artist
and a 1-character title, whose combined safe name is 151 characters. -/
def trC7 : Track := mkTrack "b" (String.mk (List.replicate 147 'a'))

/-- Counterexample for C7: after stripping, truncation to 150 characters
cuts the name inside the " - " separator and leaves a trailing space, so
the claimed no-trailing-dot-or-space property fails: the stem of the
produced filename ends in a space. -/
theorem C7_counterexample :
    trC7.safe_name.data.getLast? = some ' ' ∧
    trC7.safe_name.length = 150 ∧
    trC7.to_filename
      = String.mk (List.replicate 147 'a' ++ [' ', '-', ' ']) ++ ".mp3" := by
  set_option maxRecDepth 10000 in
  refine ⟨by decide, by decide, by decide⟩

/-- Unfolding of safe_name at the character-list level. -/
theorem safe_name_data (t : Track) :
    t.safe_name.data =
      if (stripEnds (fun c => c = '.' || c = ' ')
            ((t.artist ++ " - " ++ t.title).data.filter
              (fun c => !invalidFilenameChar c))).length > 150 then
        (stripEnds (fun c => c = '.' || c = ' ')
          ((t.artist ++ " - " ++ t.title).data.filter
            (fun c => !invalidFilenameChar c))).take 150
      else
        stripEnds (fun c => c = '.' || c = ' ')
          ((t.artist ++ " - " ++ t.title).data.filter
            (fun c => !invalidFilenameChar c)) := rfl

/-- C7 amended: every filename stem is free of the forbidden filesystem
characters, never starts with a dot or space, and is at most 150
characters; the stem also never ends with a dot or space provided the
stripped name did not exceed 150 characters - when it does exceed 150,
the truncation (which the source applies after stripping) can leave a
trailing dot or space, as the counterexample shows. The concrete claimed
example title also behaves as stated. -/
theorem C7_amended_filename_safety :
    (∀ t : Track,
      t.safe_name.data.all (fun c => !invalidFilenameChar c) = true ∧
      t.safe_name.data.head?.all
        (fun c => !(c = '.' || c = ' ')) = true ∧
      t.safe_name.length ≤ 150 ∧
      t.to_filename = t.safe_name ++ ".mp3" ∧
      ((stripEnds (fun c => c = '.' || c = ' ')
          ((t.artist ++ " - " ++ t.title).data.filter
            (fun c => !invalidFilenameChar c))).length ≤ 150 →
        t.safe_name.data.getLast?.all
          (fun c => !(c = '.' || c = ' ')) = true)) ∧
    (mkTrack "CON:/\\*?" "Artist").safe_name = "Artist - CON" ∧
    (mkTrack "CON:/\\*?" "Artist").to_filename = "Artist - CON.mp3" := by
  refine ⟨?_, by decide, by decide⟩
  intro t
  refine ⟨?_, ?_, ?_, rfl, ?_⟩
  · rw [List.all_eq_true]
    intro c hc
    rw [safe_name_data] at hc
    have hc2 : c ∈ stripEnds (fun c => c = '.' || c = ' ')
        ((t.artist ++ " - " ++ t.title).data.filter
          (fun c => !invalidFilenameChar c)) := by
      split_ifs at hc with h
      · exact List.Sublist.mem hc (List.take_sublist _ _)
      · exact hc
    have hc1 := List.Sublist.mem hc2 (stripEnds_sublist _ _)
    exact (List.mem_filter.mp hc1).2
  · cases hh : t.safe_name.data.head? with
    | none => rfl
    | some c =>
      rw [safe_name_data] at hh
      have hh2 : (stripEnds (fun c => c = '.' || c = ' ')
          ((t.artist ++ " - " ++ t.title).data.filter
            (fun c => !invalidFilenameChar c))).head? = some c := by
        split_ifs at hh with h
        · rw [List.head?_take] at hh
          simpa using hh
        · exact hh
      have := stripEnds_head? _ _ c hh2
      simp only [Option.all_some]
      rw [this]
      rfl
  · show t.safe_name.data.length ≤ 150
    rw [safe_name_data]
    split_ifs with h
    · rw [List.length_take]
      exact inf_le_left
    · omega
  · intro h
    have hdata : t.safe_name.data = stripEnds (fun c => c = '.' || c = ' ')
        ((t.artist ++ " - " ++ t.title).data.filter
          (fun c => !invalidFilenameChar c)) := by
      rw [safe_name_data, if_neg (by omega)]
    cases hh : t.safe_name.data.getLast? with
    | none => rfl
    | some c =>
      rw [hdata] at hh
      have := stripEnds_getLast? _ _ c hh
      simp only [Option.all_some]
      rw [this]
      rfl

/-- Witness for C7: the no-trailing-dot-or-space conclusion of the
amended theorem at a short concrete track, its length hypothesis
discharged concretely. -/
theorem C7_witness :
    (stripEnds (fun c => c = '.' || c = ' ')
        (((mkTrack "Song." "Artist").artist ++ " - "
            ++ (mkTrack "Song." "Artist").title).data.filter
          (fun c => !invalidFilenameChar c))).length ≤ 150 ∧
    (mkTrack "Song." "Artist").safe_name.data.getLast?.all
      (fun c => !(c = '.' || c = ' ')) = true :=
  ⟨by decide,
   (C7_amended_filename_safety.1 (mkTrack "Song." "Artist")).2.2.2.2
     (by decide)⟩

/-! ## C4, C8, C10: download_track -/

/-- The query loop yields nothing exactly when every query fails (an
exception or a miss at search or download fails only that query). -/
theorem try_queries_fst_none_iff (env : DlEnv) (qs : List String) :
    (try_queries env qs).1 = none ↔
      qs.all (fun q => !query_succeeds env q) = true := by
  induction qs with
  | nil => simp [try_queries]
  | cons q qs ih =>
    cases hs : env.searchOracle q with
    | exc => simp [try_queries, query_succeeds, hs, ih]
    | ok ov =>
      cases ov with
      | none => simp [try_queries, query_succeeds, hs, ih]
      | some v =>
        cases hd : env.downloadOracle v with
        | exc => simp [try_queries, query_succeeds, hs, hd, ih]
        | ok op =>
          cases op with
          | none => simp [try_queries, query_succeeds, hs, hd, ih]
          | some path => simp [try_queries, query_succeeds, hs, hd]

/-- C4: when the canonical target file already exists, download_track
returns SUCCESS with that path immediately, invokes no search or
download collaborator, and records no failure. -/
theorem C4_existing_file_short_circuit (env : DlEnv) (track : Track)
    (h : env.fileExists (expected_path env track) = true) :
    (download_track env track).result.status = DownloadStatus.success ∧
    (download_track env track).result.file_path
      = some (expected_path env track) ∧
    (download_track env track).calls = [] ∧
    (download_track env track).failedAppended = false := by
  unfold download_track
  dsimp only
  rw [if_pos h]
  exact ⟨rfl, rfl, rfl, rfl⟩

/-- The all-true filesystem, always-raising collaborators environment. -/
def envExists : DlEnv :=
  { downloadPath := "downloads", fileExists := fun _ => true,
    searchOracle := fun _ => CallRes.exc,
    downloadOracle := fun _ => CallRes.exc }

/-- The empty-filesystem, always-raising collaborators environment. -/
def envAllExc : DlEnv :=
  { downloadPath := "downloads", fileExists := fun _ => false,
    searchOracle := fun _ => CallRes.exc,
    downloadOracle := fun _ => CallRes.exc }

/-- Witness for C4: the short-circuit at a concrete track in an
environment where the target file exists. -/
theorem C4_witness :
    envExists.fileExists
      (expected_path envExists (mkTrack "Song" "Artist")) = true ∧
    ((download_track envExists (mkTrack "Song" "Artist")).result.status
        = DownloadStatus.success ∧
     (download_track envExists (mkTrack "Song" "Artist")).result.file_path
        = some (expected_path envExists (mkTrack "Song" "Artist")) ∧
     (download_track envExists (mkTrack "Song" "Artist")).calls = [] ∧
     (download_track envExists
        (mkTrack "Song" "Artist")).failedAppended = false) :=
  ⟨rfl, C4_existing_file_short_circuit envExists (mkTrack "Song" "Artist")
    rfl⟩

/-- C8: when the target file does not already exist, download_track
returns FAILED (with the explanatory message, recording the track in the
failed list) exactly when every generated query fails to produce a file;
a per-query exception counts against that query only and the
remaining queries are still consulted, which is what the
right-hand side of the equivalence expresses. -/
theorem C8_failed_iff_all_queries_fail (env : DlEnv) (track : Track)
    (h : env.fileExists (expected_path env track) = false) :
    ((download_track env track).result.status = DownloadStatus.failed ↔
        (generate_search_queries track).all
          (fun q => !query_succeeds env q) = true) ∧
    ((download_track env track).failedAppended = true ↔
        (generate_search_queries track).all
          (fun q => !query_succeeds env q) = true) ∧
    ((download_track env track).result.status = DownloadStatus.failed →
        (download_track env track).result.error_message
          = some "No suitable video found") := by
  have hne : ¬ (env.fileExists (expected_path env track) = true) := by
    rw [h]
    exact Bool.false_ne_true
  have hiff := try_queries_fst_none_iff env (generate_search_queries track)
  unfold download_track
  dsimp only
  rw [if_neg hne]
  cases htq : try_queries env (generate_search_queries track) with
  | mk fst calls =>
    rw [htq] at hiff
    cases fst with
    | none =>
      have hall := hiff.mp rfl
      exact ⟨iff_of_true rfl hall, iff_of_true rfl hall, fun _ => rfl⟩
    | some vp =>
      cases vp with
      | mk v path =>
        have hnall : ¬ ((generate_search_queries track).all
            (fun q => !query_succeeds env q) = true) := by
          intro hall
          exact Option.noConfusion (hiff.mpr hall)
        refine ⟨?_, ?_, ?_⟩
        · show DownloadStatus.success = DownloadStatus.failed ↔
            (generate_search_queries track).all
              (fun q => !query_succeeds env q) = true
          exact iff_of_false (by decide) hnall
        · show false = true ↔
            (generate_search_queries track).all
              (fun q => !query_succeeds env q) = true
          exact iff_of_false (by decide) hnall
        · intro hc
          exact nomatch hc

/-- Witness for C8: in an environment whose search always raises, every
query fails, and download_track at a concrete track returns FAILED with
the explanatory message and records the failure. -/
theorem C8_witness :
    envAllExc.fileExists
      (expected_path envAllExc (mkTrack "Song" "Artist")) = false ∧
    (download_track envAllExc (mkTrack "Song" "Artist")).result.status
      = DownloadStatus.failed ∧
    (download_track envAllExc
      (mkTrack "Song" "Artist")).result.error_message
      = some "No suitable video found" ∧
    (download_track envAllExc
      (mkTrack "Song" "Artist")).failedAppended = true := by
  have h := C8_failed_iff_all_queries_fail envAllExc
    (mkTrack "Song" "Artist") rfl
  have hall : (generate_search_queries (mkTrack "Song" "Artist")).all
      (fun q => !query_succeeds envAllExc q) = true := by
    set_option maxRecDepth 10000 in decide
  have hfailed := h.1.mpr hall
  exact ⟨rfl, hfailed, h.2.2 hfailed, h.2.1.mpr hall⟩

/-- C10: download_track is total by construction (it is a Lean function
of the oracle environment, which models every collaborator behavior
including raising); its status is always SUCCESS or FAILED, and a FAILED
result always carries an error message. -/
theorem C10_download_track_total (env : DlEnv) (track : Track) :
    ((download_track env track).result.status = DownloadStatus.success ∨
     (download_track env track).result.status = DownloadStatus.failed) ∧
    ((download_track env track).result.status = DownloadStatus.failed →
     (download_track env track).result.error_message.isSome = true) := by
  unfold download_track
  dsimp only
  split_ifs with h
  · exact ⟨Or.inl rfl, fun hc => nomatch hc⟩
  · cases htq : try_queries env (generate_search_queries track) with
    | mk fst calls =>
      cases fst with
      | none => exact ⟨Or.inr rfl, fun _ => rfl⟩
      | some vp =>
        cases vp with
        | mk v path =>
          exact ⟨Or.inl rfl, fun hc => nomatch hc⟩

/-- Witness for C10: the error-message guarantee instantiated where the
result is FAILED (all collaborators raising), the status hypothesis
discharged by evaluation. -/
theorem C10_witness :
    (download_track envAllExc
      (mkTrack "Song" "Artist")).result.error_message.isSome = true :=
  (C10_download_track_total envAllExc (mkTrack "Song" "Artist")).2
    (by set_option maxRecDepth 10000 in decide)

/-! ## C2: query generation -/

/-- Query generation as the spec reads (4.1): identical templates, but
degrading to the original (uncleaned) strings whenever cleanup yields an
empty result. Stated only for comparison with the source definition of
generate_search_queries, which contains no such fallback. -/
def generate_search_queries_fallback (track : Track) : List String :=
  let ct0 := clean_search_text track.title
  let ca0 := clean_search_text track.artist
  let clean_title := if ct0 = "" then track.title else ct0
  let clean_artist := if ca0 = "" then track.artist else ca0
  let queries : List String :=
    [ "\"" ++ clean_title ++ "\" \"" ++ clean_artist ++ "\" official audio",
      "\"" ++ clean_title ++ "\" \"" ++ clean_artist ++ "\" lyrics",
      "\"" ++ clean_title ++ "\" \"" ++ clean_artist ++ "\" official music video",
      clean_artist ++ " " ++ clean_title ++ " official",
      clean_artist ++ " " ++ clean_title,
      clean_title ++ " " ++ clean_artist,
      clean_title ++ " by " ++ clean_artist ]
  queries.take 3

/-- A track whose title cleans to the empty string. -/
def trC2 : Track := mkTrack "[x]" "Band"

/-- Counterexample for C2: for the title "[x]" cleanup yields the empty
string, and the generator embeds that empty cleaned string in the
queries instead of falling back to the original title - no produced
query mentions the original title, and the output differs from the
fallback behavior described by the spec. -/
theorem C2_counterexample :
    clean_search_text "[x]" = "" ∧
    generate_search_queries trC2 =
      ["\"\" \"Band\" official audio", "\"\" \"Band\" lyrics",
       "\"\" \"Band\" official music video"] ∧
    decide (generate_search_queries trC2
      = generate_search_queries_fallback trC2) = false ∧
    (generate_search_queries trC2).all
      (fun q => !containsSubstrS q "[x]") = true := by
  exact ⟨rfl, rfl, by decide, rfl⟩

/-- Appending to the right of a non-empty string stays non-empty. -/
theorem data_isEmpty_append_left (s t : String)
    (h : s.data.isEmpty = false) : ((s ++ t).data).isEmpty = false := by
  rw [String.data_append]
  cases hs : s.data with
  | nil => rw [hs] at h; simp at h
  | cons c cs => simp

/-- C2 amended: query generation always returns exactly 3 queries, in
template order, and each is a non-empty string because every retained
template contributes literal text; but there is no fallback to the
uncleaned strings - an empty cleanup result is interpolated as the empty
string (see the counterexample). -/
theorem C2_amended_queries (t : Track) :
    (generate_search_queries t).length = 3 ∧
    (generate_search_queries t).all (fun q => !(q.data.isEmpty)) = true := by
  have key : ∀ (x y z w : String),
      ((((("\"" : String) ++ x) ++ y) ++ z) ++ w).data.isEmpty = false := by
    intro x y z w
    apply data_isEmpty_append_left
    apply data_isEmpty_append_left
    apply data_isEmpty_append_left
    apply data_isEmpty_append_left
    rfl
  have hq : generate_search_queries t =
      [ "\"" ++ clean_search_text t.title ++ "\" \""
          ++ clean_search_text t.artist ++ "\" official audio",
        "\"" ++ clean_search_text t.title ++ "\" \""
          ++ clean_search_text t.artist ++ "\" lyrics",
        "\"" ++ clean_search_text t.title ++ "\" \""
          ++ clean_search_text t.artist ++ "\" official music video" ] := rfl
  rw [hq]
  refine ⟨rfl, ?_⟩
  simp only [List.all_cons, List.all_nil, Bool.and_eq_true]
  refine ⟨?_, ?_, ?_, trivial⟩ <;> rw [key] <;> rfl

/-! ## C6: abort behavior and exit codes -/

/-- An environment whose playlists file contains no valid playlist URL. -/
def envC6 : RunEnv :=
  { fileLines := some ["not a url"],
    extractRes := CallRes.ok ([], []), events := [] }

/-- An environment with a valid playlist URL whose extraction yields
zero tracks. -/
def envC6b : RunEnv :=
  { fileLines := some ["https://open.spotify.com/playlist/abc"],
    extractRes := CallRes.ok ([], []), events := [] }

/-- Counterexample for C6: with no valid playlist URLs (and likewise
with zero extracted tracks) run() returns early after logging, main()
returns normally, and the process exit code is 0, not non-zero as the
claim states. -/
theorem C6_counterexample :
    read_playlist_urls envC6.fileLines = [] ∧
    run_service config envC6 = RunPhase.aborted_no_urls ∧
    main_run true true config envC6 = (some RunPhase.aborted_no_urls, 0) ∧
    run_service config envC6b = RunPhase.aborted_no_tracks ∧
    main_run true true config envC6b
      = (some RunPhase.aborted_no_tracks, 0) := by
  refine ⟨by decide, by decide, by decide, by decide, by decide⟩

/-- C6 amended: when the input file yields no valid playlist URLs, or
extraction yields zero tracks, the run is aborted before the download
loop (with an error logged) but the process still exits with code 0;
the non-zero exit paths are missing credentials and initialization
failure. -/
theorem C6_amended_abort_zero_exit (env : RunEnv) :
    (read_playlist_urls env.fileLines = [] →
      main_run true true config env
        = (some RunPhase.aborted_no_urls, 0)) ∧
    (∀ ps : List PlaylistInfo,
      read_playlist_urls env.fileLines ≠ [] →
      env.extractRes = CallRes.ok (ps, []) →
      main_run true true config env
        = (some RunPhase.aborted_no_tracks, 0)) ∧
    main_run false true config env = (none, 1) ∧
    main_run true false config env = (none, 1) := by
  refine ⟨?_, ?_, rfl, rfl⟩
  · intro h
    unfold main_run run_service
    rw [h]
    rfl
  · intro ps hne hex
    unfold main_run run_service
    rw [hex]
    cases hu : read_playlist_urls env.fileLines with
    | nil => exact absurd hu hne
    | cons a l => rfl

/-- Witness for C6: the zero-tracks abort at the concrete environment,
both hypotheses discharged there. -/
theorem C6_witness :
    read_playlist_urls envC6b.fileLines ≠ [] ∧
    main_run true true config envC6b
      = (some RunPhase.aborted_no_tracks, 0) :=
  ⟨by decide, (C6_amended_abort_zero_exit envC6b).2.1 [] (by decide) rfl⟩

/-! ## C9: deduplication -/

/-- Deduplication yields a sublist of the input (relative order of kept
tracks is the input order). -/
theorem dedup_by_id_sublist (seen : List String) (ts : List Track) :
    (dedup_by_id seen ts).Sublist ts := by
  induction ts generalizing seen with
  | nil => simp [dedup_by_id]
  | cons t ts ih =>
    unfold dedup_by_id
    split_ifs with h
    · exact (ih seen).trans (List.sublist_cons_self t ts)
    · exact List.Sublist.cons₂ t (ih _)

/-- A key occurs among the deduplicated tracks exactly when it occurs in
the input and is not already in the seen set. -/
theorem mem_keys_dedup (seen : List String) (ts : List Track)
    (k : String) :
    k ∈ (dedup_by_id seen ts).map Track.spotify_id ↔
      (k ∈ ts.map Track.spotify_id ∧ k ∉ seen) := by
  induction ts generalizing seen with
  | nil => simp [dedup_by_id]
  | cons t ts ih =>
    unfold dedup_by_id
    split_ifs with h
    · rw [ih]
      simp only [List.map_cons, List.mem_cons]
      constructor
      · rintro ⟨hk, hns⟩
        exact ⟨Or.inr hk, hns⟩
      · rintro ⟨hk | hk, hns⟩
        · subst hk
          exact absurd h hns
        · exact ⟨hk, hns⟩
    · simp only [List.map_cons, List.mem_cons]
      rw [ih]
      constructor
      · rintro (hk | ⟨hk, hns⟩)
        · exact ⟨Or.inl hk, by rw [hk]; exact h⟩
        · refine ⟨Or.inr hk, ?_⟩
          intro hs
          exact hns (List.mem_cons_of_mem _ hs)
      · rintro ⟨hk | hk, hns⟩
        · exact Or.inl hk
        · by_cases hkt : k = t.spotify_id
          · exact Or.inl hkt
          · refine Or.inr ⟨hk, ?_⟩
            intro hs
            rcases List.mem_cons.mp hs with h1 | h1
            · exact hkt h1
            · exact hns h1

/-- The deduplicated keys are pairwise distinct. -/
theorem nodup_keys_dedup (seen : List String) (ts : List Track) :
    ((dedup_by_id seen ts).map Track.spotify_id).Nodup := by
  induction ts generalizing seen with
  | nil => simp [dedup_by_id]
  | cons t ts ih =>
    unfold dedup_by_id
    split_ifs with h
    · exact ih seen
    · simp only [List.map_cons, List.nodup_cons]
      refine ⟨?_, ih _⟩
      intro hmem
      exact ((mem_keys_dedup _ _ _).mp hmem).2
        (List.mem_cons_self _ _)

/-- Every kept track is the first input track carrying its key. -/
theorem dedup_first_occurrence (seen : List String) (ts : List Track) :
    ∀ t ∈ dedup_by_id seen ts,
      ts.find? (fun u => u.spotify_id == t.spotify_id) = some t := by
  induction ts generalizing seen with
  | nil => simp [dedup_by_id]
  | cons b ts ih =>
    intro t ht
    unfold dedup_by_id at ht
    split_ifs at ht with h
    · have htid : t.spotify_id ∉ seen := by
        have hmem : t.spotify_id ∈ (dedup_by_id seen ts).map
            Track.spotify_id := List.mem_map_of_mem _ ht
        exact ((mem_keys_dedup seen ts _).mp hmem).2
      have hfb : (b.spotify_id == t.spotify_id) = false := by
        rw [beq_eq_false_iff_ne]
        intro he
        rw [he] at h
        exact htid h
      simp only [List.find?, hfb]
      exact ih seen t ht
    · rcases List.mem_cons.mp ht with hbt | ht2
      · subst hbt
        simp only [List.find?, beq_self_eq_true]
      · have htid : t.spotify_id ∉ (b.spotify_id :: seen) := by
          have hmem : t.spotify_id ∈ (dedup_by_id
              (b.spotify_id :: seen) ts).map Track.spotify_id :=
            List.mem_map_of_mem _ ht2
          exact ((mem_keys_dedup _ ts _).mp hmem).2
        have hfb : (b.spotify_id == t.spotify_id) = false := by
          rw [beq_eq_false_iff_ne]
          intro he
          exact htid (by rw [← he]; exact List.mem_cons_self _ _)
        simp only [List.find?, hfb]
        exact ih _ t ht2

/-- C9: the merged track list of extract_multiple_playlists carries
pairwise distinct identity keys, is a sublist of the concatenated
extraction output (relative order of first occurrences preserved), each
merged entry is the first occurrence of its key in extraction order, and
every key of the concatenated output is represented. -/
theorem C9_dedup_merged_tracks
    (results : List (Option (PlaylistInfo × List Track))) :
    ((extract_multiple_playlists results).2.map Track.spotify_id).Nodup ∧
    ((extract_multiple_playlists results).2).Sublist
      (all_extracted_tracks results) ∧
    (∀ t ∈ (extract_multiple_playlists results).2,
      (all_extracted_tracks results).find?
        (fun u => u.spotify_id == t.spotify_id) = some t) ∧
    (∀ k ∈ (all_extracted_tracks results).map Track.spotify_id,
      k ∈ ((extract_multiple_playlists results).2).map
        Track.spotify_id) := by
  have he : (extract_multiple_playlists results).2
      = dedup_by_id [] (all_extracted_tracks results) := rfl
  rw [he]
  refine ⟨nodup_keys_dedup _ _, dedup_by_id_sublist _ _,
    dedup_first_occurrence _ _, ?_⟩
  intro k hk
  rw [mem_keys_dedup]
  exact ⟨hk, by simp⟩

/-- First track of the first witness playlist. -/
def trackA : Track :=
  { title := "T1", artist := "A1", album := "", duration_ms := 0,
    isrc := "", spotify_id := "id1", playlist_name := "P1" }

/-- Second track of the first witness playlist. -/
def trackB : Track :=
  { title := "T2", artist := "A2", album := "", duration_ms := 0,
    isrc := "", spotify_id := "id2", playlist_name := "P1" }

/-- The copy of the shared track in the second witness playlist (same
identity key as trackA, different playlist). -/
def trackA2 : Track :=
  { title := "T1", artist := "A1", album := "", duration_ms := 0,
    isrc := "", spotify_id := "id1", playlist_name := "P2" }

/-- Two playlists sharing a track by identity key, with a failed
extraction in between. -/
def resultsC9 : List (Option (PlaylistInfo × List Track)) :=
  [ some ({ name := "P1", url := "u1", platform := "spotify",
            track_count := 2 }, [trackA, trackB]),
    none,
    some ({ name := "P2", url := "u2", platform := "spotify",
            track_count := 1 }, [trackA2]) ]

/-- Witness for C9: on two playlists sharing the key id1 the merged
list keeps exactly the two first occurrences in order, and the
first-occurrence property is obtained from the theorem with its
membership hypothesis discharged concretely. -/
theorem C9_witness :
    trackA ∈ (extract_multiple_playlists resultsC9).2 ∧
    (all_extracted_tracks resultsC9).find?
      (fun u => u.spotify_id == trackA.spotify_id) = some trackA ∧
    (extract_multiple_playlists resultsC9).2 = [trackA, trackB] :=
  ⟨by decide,
   (C9_dedup_merged_tracks resultsC9).2.2.1 trackA (by decide),
   by decide⟩
